import Mathlib

/-!
Trait reference resolution.

A shallow embedding of `gcc/rust/typecheck/rust-hir-trait-ref.h`: the data
objects `TraitItemReference` and `TraitReference`, the per-item visitor
`ResolveTraitItemToRef` and the path resolver `ResolveTraitRef`.

Conventions of the embedding.

* A C++ pointer to a node is an `Option` of the node: `none` is `nullptr`,
  `some n` points at `n`.
* `rust_assert` either lets the run continue or halts it; a run therefore
  ends in an `Outcome`, either `returned v` or `halted a` where `a` names the
  assertion that failed.
* `rust_fatal_error` appends one diagnostic to the log of the run and the
  run goes on with the statement that follows it.
* `rust_debug` lines only write to the debug dump and are left out.
* Every call of `ResolveTraitItemToRef::Resolve` made by the loop of
  `ResolveTraitRef::go` is recorded, in order, in the field `classified` of
  the run.
-/

set_option autoImplicit false

namespace Rust

abbrev NodeId := Nat
abbrev HirId := Nat
abbrev CrateNum := Nat
abbrev Location := Nat

namespace TyTy

/-- Modelled from the spec: the semantic type `TyTy::BaseType`, owned by the
type-inference subsystem; only its identity matters here. -/
structure BaseType where
  ty_ref : HirId
deriving DecidableEq, Repr

end TyTy

namespace HIR

/-- Modelled from the spec: a function declaration of a trait body
(`HIR::TraitItemFunc`), with its identifier and whether it carries a default
body. -/
structure TraitItemFunc where
  name : String
  has_block_defined : Bool
deriving DecidableEq, Repr

/-- Modelled from the spec: a constant declaration of a trait body
(`HIR::TraitItemConst`), with its identifier and whether it carries a default
value. -/
structure TraitItemConst where
  name : String
  has_expr : Bool
deriving DecidableEq, Repr

/-- Modelled from the spec: an associated-type declaration of a trait body
(`HIR::TraitItemType`), with its identifier and whether it carries a default
type. -/
structure TraitItemType where
  name : String
  has_default : Bool
deriving DecidableEq, Repr

/-- Modelled from the spec: the syntactic variants of `HIR::TraitItem`:
function, constant, associated type, and any other node. -/
inductive TraitItem where
  | Func (fn : TraitItemFunc)
  | Const (c : TraitItemConst)
  | AssocType (t : TraitItemType)
  | Other (tag : Nat)
deriving DecidableEq, Repr

/-- Modelled from the spec: a trait declaration (`HIR::Trait`) with the items
of its body in declaration order (`get_trait_items`). -/
structure Trait where
  name : String
  trait_items : List TraitItem
deriving DecidableEq, Repr

def Trait.get_trait_items (t : Trait) : List TraitItem := t.trait_items

/-- Modelled from the spec: the declarations a path can resolve to
(`HIR::Item`): a trait, or a struct, enum, function or other item. -/
inductive Item where
  | Trait (t : HIR.Trait)
  | StructStruct (name : String)
  | Enum (name : String)
  | Function (name : String)
  | Other (tag : Nat)
deriving DecidableEq, Repr

/-- Modelled from the spec: a type-path expression (`HIR::TypePath`): the
node id of its mappings, its source location and its text. -/
structure TypePath where
  nodeid : NodeId
  locus : Location
  text : String
deriving DecidableEq, Repr

end HIR

namespace Resolver

/-- The kind tag `TraitItemReference::TraitItemType`. -/
inductive TraitItemReference.TraitItemType where
  | FN
  | CONST
  | TYPE
  | ERROR
deriving DecidableEq, Repr

/-- The data object `TraitItemReference`, with its five private fields. -/
structure TraitItemReference where
  identifier : String
  optional_flag : Bool
  type : TraitItemReference.TraitItemType
  hir_trait_item : Option HIR.TraitItem
  ty : Option TyTy.BaseType
deriving DecidableEq, Repr

namespace TraitItemReference

/-- `TraitItemReference::error ()`:
`TraitItemReference ("", false, ERROR, nullptr, nullptr)`. -/
def error : TraitItemReference :=
  ⟨"", false, TraitItemType.ERROR, none, none⟩

/-- `is_error ()`: `type == ERROR`. -/
def is_error (r : TraitItemReference) : Bool :=
  decide (r.type = TraitItemType.ERROR)

/-- `is_optional ()`: `optional_flag`. -/
def is_optional (r : TraitItemReference) : Bool := r.optional_flag

/-- The `switch (ty)` of `trait_item_type_as_string`: the string the case
taken returns, or `none` when no case is taken and control leaves the
switch. -/
def trait_item_type_switch : TraitItemType → Option String
  | TraitItemType.FN => some "FN"
  | TraitItemType.CONST => some "CONST"
  | TraitItemType.TYPE => some "TYPE"
  | TraitItemType.ERROR => some "ERROR"

/-- `trait_item_type_as_string`: the switch over the four kinds, followed by
`return "ERROR"` for a run that leaves the switch. -/
def trait_item_type_as_string (ty : TraitItemType) : String :=
  match trait_item_type_switch ty with
  | some s => s
  | none => "ERROR"

/-- `as_string ()`: the kind, the identifier, the text of the declaration and
the text of the semantic type, separated by blanks. Both pointers are
dereferenced; the result is `none` when one of them is null. The texts of the
declaration and of the type are parameters. -/
def as_string (item_as_string : HIR.TraitItem → String)
    (ty_as_string : TyTy.BaseType → String) (r : TraitItemReference) :
    Option String :=
  match r.hir_trait_item, r.ty with
  | some item, some t =>
    some (trait_item_type_as_string r.type ++ " " ++ r.identifier ++ " "
      ++ item_as_string item ++ " " ++ ty_as_string t)
  | _, _ => none

end TraitItemReference

/-- The data object `TraitReference`. -/
structure TraitReference where
  hir_trait_ref : Option HIR.Trait
  item_refs : List TraitItemReference
deriving DecidableEq, Repr

namespace TraitReference

/-- `TraitReference::error ()`: `TraitReference (nullptr, {})`. -/
def error : TraitReference := ⟨none, []⟩

/-- `is_error ()`: `hir_trait_ref == nullptr`. -/
def is_error (r : TraitReference) : Bool := r.hir_trait_ref.isNone

/-- `as_string ()`: the empty string. -/
def as_string (_r : TraitReference) : String := ""

end TraitReference

/-- The values of the two constructor parameters of `TraitItemReference`
that `ResolveTraitItemToRef::visit (HIR::TraitItemFunc &)` does not supply:
the class declares one constructor, of `identifier`, `optional`, `type`,
`hir_trait_item` and `ty`, and the visitor calls it with the last three
only. Whatever the first two are, they are not computed from the item. -/
structure Unsupplied where
  identifier : String
  optional : Bool
deriving DecidableEq, Repr

/-- The visitor `ResolveTraitItemToRef`: its one field `resolved`. -/
structure ResolveTraitItemToRef where
  resolved : TraitItemReference
deriving DecidableEq, Repr

namespace ResolveTraitItemToRef

/-- The private constructor: `resolved (TraitItemReference::error ())`. -/
def new : ResolveTraitItemToRef := ⟨TraitItemReference.error⟩

/-- `visit (HIR::TraitItemFunc &fn)`: `ty` is `nullptr`, and `resolved`
becomes the reference of kind `FN` to `fn` with that `ty`. -/
def visit (u : Unsupplied) (_self : ResolveTraitItemToRef)
    (fn : HIR.TraitItemFunc) : ResolveTraitItemToRef :=
  let ty : Option TyTy.BaseType := none
  ⟨⟨u.identifier, u.optional, TraitItemReference.TraitItemType.FN,
    some (HIR.TraitItem.Func fn), ty⟩⟩

/-- Modelled from the spec: `item.accept_vis (resolver)` dispatches on the
variant of the item. The visitor overrides the case of a function
declaration only; every other variant reaches the inherited case of
`TypeCheckBase`, which leaves the visitor untouched ("the default when no
case applies"). -/
def accept_vis (u : Unsupplied) (item : HIR.TraitItem)
    (self : ResolveTraitItemToRef) : ResolveTraitItemToRef :=
  match item with
  | HIR.TraitItem.Func fn => visit u self fn
  | HIR.TraitItem.Const _ => self
  | HIR.TraitItem.AssocType _ => self
  | HIR.TraitItem.Other _ => self

/-- `ResolveTraitItemToRef::Resolve (item)`: a fresh visitor visits the item
and its `resolved` is returned. -/
def Resolve (u : Unsupplied) (item : HIR.TraitItem) : TraitItemReference :=
  let resolver := ResolveTraitItemToRef.new
  let resolver := accept_vis u item resolver
  resolver.resolved

end ResolveTraitItemToRef

/-- The collaborators reached through the base class `TypeCheckBase`:
`resolver->lookup_resolved_type`, `mappings->get_current_crate`,
`mappings->lookup_node_to_hir` and `mappings->lookup_hir_item`. A lookup
with an out-parameter and a boolean result is an `Option`; a lookup that
returns a pointer is an `Option` as well. -/
structure TypeCheckBase where
  lookup_resolved_type : NodeId → Option NodeId
  get_current_crate : CrateNum
  lookup_node_to_hir : CrateNum → NodeId → Option HirId
  lookup_hir_item : CrateNum → HirId → Option HIR.Item

/-- The two assertions of `ResolveTraitRef::go`. -/
inductive Assertion where
  | resolved_item_not_null
  | trait_reference_not_null
deriving DecidableEq, Repr

/-- How a run ends: it returns a value, or an assertion fails and it halts. -/
inductive Outcome (α : Type) where
  | returned (value : α)
  | halted (failed : Assertion)
deriving DecidableEq, Repr

/-- One entry of the fatal-error channel: a location and a message. -/
structure Diagnostic where
  locus : Location
  message : String
deriving DecidableEq, Repr

/-- A run of `ResolveTraitRef::Resolve`: how it ends, the fatal diagnostics
it emitted, and the items `ResolveTraitItemToRef::Resolve` was called on. -/
structure Run where
  result : Outcome TraitReference
  fatal : List Diagnostic
  classified : List HIR.TraitItem
deriving DecidableEq, Repr

/-- Modelled from the spec: `rust_fatal_error (locus, message)` notifies the
fatal-error channel with a source location and a message. -/
def rust_fatal_error (log : List Diagnostic) (locus : Location)
    (message : String) : List Diagnostic :=
  log ++ [⟨locus, message⟩]

/-- The visitor `ResolveTraitRef`: its one field `trait_reference`. -/
structure ResolveTraitRef where
  trait_reference : Option HIR.Trait
deriving DecidableEq, Repr

namespace ResolveTraitRef

/-- The private constructor `ResolveTraitRef () : TypeCheckBase () {}`. It
has no initialiser for `trait_reference`, so the field starts with the
indeterminate value of its storage, taken here as the parameter
`indeterminate`: null, or a pointer some earlier use left there. -/
def new (indeterminate : Option HIR.Trait) : ResolveTraitRef :=
  ⟨indeterminate⟩

/-- `visit (HIR::Trait &trait)`: `trait_reference = &trait`. -/
def visit (_self : ResolveTraitRef) (trait : HIR.Trait) : ResolveTraitRef :=
  ⟨some trait⟩

/-- Modelled from the spec: `resolved_item->accept_vis (*this)` dispatches on
the variant of the item. The visitor overrides the case of a trait only;
every other variant reaches the inherited case of `TypeCheckBase`, which
leaves the visitor untouched. -/
def accept_vis (item : HIR.Item) (self : ResolveTraitRef) : ResolveTraitRef :=
  match item with
  | HIR.Item.Trait t => visit self t
  | HIR.Item.StructStruct _ => self
  | HIR.Item.Enum _ => self
  | HIR.Item.Function _ => self
  | HIR.Item.Other _ => self

/-- The state of the loop of `go`: the vector `item_refs` and the record of
the calls of the item classifier. -/
structure LoopState where
  item_refs : List TraitItemReference
  classified : List HIR.TraitItem
deriving DecidableEq, Repr

/-- One iteration of the loop of `go`: the item is classified and the
result is pushed at the back of `item_refs`. -/
def loop_body (u : Unsupplied) (st : LoopState) (item : HIR.TraitItem) :
    LoopState :=
  let trait_item_ref := ResolveTraitItemToRef.Resolve u item
  ⟨st.item_refs ++ [trait_item_ref], st.classified ++ [item]⟩

/-- The loop `for (auto &item : trait_reference->get_trait_items ())`,
started with an empty `item_refs`. -/
def resolve_items (u : Unsupplied) (items : List HIR.TraitItem) : LoopState :=
  items.foldl (loop_body u) ⟨[], []⟩

/-- `ResolveTraitRef::go (path)`. -/
def go (ctx : TypeCheckBase) (u : Unsupplied) (self : ResolveTraitRef)
    (path : HIR.TypePath) : Run :=
  match ctx.lookup_resolved_type path.nodeid with
  | none =>
    ⟨Outcome.returned TraitReference.error,
      rust_fatal_error [] path.locus "Failed to resolve path to node-id", []⟩
  | some ref =>
    match ctx.lookup_node_to_hir ctx.get_current_crate ref with
    | none =>
      ⟨Outcome.returned TraitReference.error,
        rust_fatal_error [] path.locus "Failed to resolve path to hir-id", []⟩
    | some hir_node =>
      match ctx.lookup_hir_item ctx.get_current_crate hir_node with
      | none => ⟨Outcome.halted Assertion.resolved_item_not_null, [], []⟩
      | some resolved_item =>
        let self := accept_vis resolved_item self
        match self.trait_reference with
        | none => ⟨Outcome.halted Assertion.trait_reference_not_null, [], []⟩
        | some trait =>
          let st := resolve_items u trait.get_trait_items
          ⟨Outcome.returned ⟨some trait, st.item_refs⟩, [], st.classified⟩

/-- `ResolveTraitRef::Resolve (path)`: a fresh resolver runs `go`. -/
def Resolve (ctx : TypeCheckBase) (u : Unsupplied)
    (indeterminate : Option HIR.Trait) (path : HIR.TypePath) : Run :=
  let resolver := ResolveTraitRef.new indeterminate
  go ctx u resolver path

end ResolveTraitRef

/-! Sample inputs -/

/-- A trait with a required function, a node of no recognised variant and a
constant with a default value. -/
def shapeTrait : HIR.Trait :=
  ⟨"Shape", [HIR.TraitItem.Func ⟨"area", false⟩, HIR.TraitItem.Other 0,
    HIR.TraitItem.Const ⟨"SIDES", true⟩]⟩

/-- A trait with no items. -/
def markerTrait : HIR.Trait := ⟨"Marker", []⟩

/-- A trait whose items are two functions, one with a default body. -/
def drawTrait : HIR.Trait :=
  ⟨"Draw", [HIR.TraitItem.Func ⟨"draw", false⟩,
    HIR.TraitItem.Func ⟨"clear", true⟩]⟩

/-- A symbol table and item registry: node 1 is the trait `Shape`, node 2
the struct `Point`, node 3 has a definition without a hir id, node 4 has a
hir id without a registered item, node 5 is the trait `Marker`, node 6 the
trait `Draw`; no other node resolves. -/
def sampleCtx : TypeCheckBase where
  lookup_resolved_type := fun n =>
    match n with
    | 1 => some 10
    | 2 => some 20
    | 3 => some 30
    | 4 => some 40
    | 5 => some 50
    | 6 => some 60
    | _ => none
  get_current_crate := 0
  lookup_node_to_hir := fun _ n =>
    match n with
    | 10 => some 100
    | 20 => some 200
    | 40 => some 400
    | 50 => some 500
    | 60 => some 600
    | _ => none
  lookup_hir_item := fun _ h =>
    match h with
    | 100 => some (HIR.Item.Trait shapeTrait)
    | 200 => some (HIR.Item.StructStruct "Point")
    | 500 => some (HIR.Item.Trait markerTrait)
    | 600 => some (HIR.Item.Trait drawTrait)
    | _ => none

def shapePath : HIR.TypePath := ⟨1, 11, "Shape"⟩
def pointPath : HIR.TypePath := ⟨2, 12, "Point"⟩
def noHirPath : HIR.TypePath := ⟨3, 13, "Ghost"⟩
def noItemPath : HIR.TypePath := ⟨4, 14, "Lost"⟩
def markerPath : HIR.TypePath := ⟨5, 15, "Marker"⟩
def drawPath : HIR.TypePath := ⟨6, 16, "Draw"⟩
def unknownPath : HIR.TypePath := ⟨9, 19, "Nowhere"⟩

/-- The empty identifier and `false` for the two values the function case
does not supply. -/
def blankUnsupplied : Unsupplied := ⟨"", false⟩

/-! Lemmas on the loop and on the exits of `go` -/

theorem foldl_loop_body (u : Unsupplied) (items : List HIR.TraitItem)
    (st : ResolveTraitRef.LoopState) :
    items.foldl (ResolveTraitRef.loop_body u) st
      = ⟨st.item_refs ++ items.map (ResolveTraitItemToRef.Resolve u),
          st.classified ++ items⟩ := by
  induction items generalizing st with
  | nil => simp
  | cons x xs ih =>
    simp [List.foldl, ih, ResolveTraitRef.loop_body, List.append_assoc]

theorem resolve_items_eq (u : Unsupplied) (items : List HIR.TraitItem) :
    ResolveTraitRef.resolve_items u items
      = ⟨items.map (ResolveTraitItemToRef.Resolve u), items⟩ := by
  simp [ResolveTraitRef.resolve_items, foldl_loop_body]

theorem Resolve_of_trait (ctx : TypeCheckBase) (u : Unsupplied)
    (indeterminate : Option HIR.Trait) (path : HIR.TypePath)
    (ref : NodeId) (hir_node : HirId) (t : HIR.Trait)
    (h1 : ctx.lookup_resolved_type path.nodeid = some ref)
    (h2 : ctx.lookup_node_to_hir ctx.get_current_crate ref = some hir_node)
    (h3 : ctx.lookup_hir_item ctx.get_current_crate hir_node
      = some (HIR.Item.Trait t)) :
    ResolveTraitRef.Resolve ctx u indeterminate path
      = ⟨Outcome.returned
          ⟨some t, t.trait_items.map (ResolveTraitItemToRef.Resolve u)⟩,
          [], t.trait_items⟩ := by
  simp [ResolveTraitRef.Resolve, ResolveTraitRef.go, h1, h2, h3,
    ResolveTraitRef.accept_vis, ResolveTraitRef.visit, resolve_items_eq,
    HIR.Trait.get_trait_items]

theorem Resolve_of_unresolved (ctx : TypeCheckBase) (u : Unsupplied)
    (indeterminate : Option HIR.Trait) (path : HIR.TypePath)
    (h1 : ctx.lookup_resolved_type path.nodeid = none) :
    ResolveTraitRef.Resolve ctx u indeterminate path
      = ⟨Outcome.returned TraitReference.error,
          [⟨path.locus, "Failed to resolve path to node-id"⟩], []⟩ := by
  simp [ResolveTraitRef.Resolve, ResolveTraitRef.go, h1, rust_fatal_error]

theorem Resolve_of_no_hir (ctx : TypeCheckBase) (u : Unsupplied)
    (indeterminate : Option HIR.Trait) (path : HIR.TypePath) (ref : NodeId)
    (h1 : ctx.lookup_resolved_type path.nodeid = some ref)
    (h2 : ctx.lookup_node_to_hir ctx.get_current_crate ref = none) :
    ResolveTraitRef.Resolve ctx u indeterminate path
      = ⟨Outcome.returned TraitReference.error,
          [⟨path.locus, "Failed to resolve path to hir-id"⟩], []⟩ := by
  simp [ResolveTraitRef.Resolve, ResolveTraitRef.go, h1, h2, rust_fatal_error]

theorem Resolve_of_no_item (ctx : TypeCheckBase) (u : Unsupplied)
    (indeterminate : Option HIR.Trait) (path : HIR.TypePath)
    (ref : NodeId) (hir_node : HirId)
    (h1 : ctx.lookup_resolved_type path.nodeid = some ref)
    (h2 : ctx.lookup_node_to_hir ctx.get_current_crate ref = some hir_node)
    (h3 : ctx.lookup_hir_item ctx.get_current_crate hir_node = none) :
    ResolveTraitRef.Resolve ctx u indeterminate path
      = ⟨Outcome.halted Assertion.resolved_item_not_null, [], []⟩ := by
  simp [ResolveTraitRef.Resolve, ResolveTraitRef.go, h1, h2, h3]

/-- Every descriptor a run returns is the error sentinel, or it carries a
trait together with the classification of each item of that trait. -/
theorem returned_cases (ctx : TypeCheckBase) (u : Unsupplied)
    (indeterminate : Option HIR.Trait) (path : HIR.TypePath)
    (r : TraitReference)
    (h : (ResolveTraitRef.Resolve ctx u indeterminate path).result
      = Outcome.returned r) :
    r = TraitReference.error
      ∨ ∃ t, r = ⟨some t, t.trait_items.map (ResolveTraitItemToRef.Resolve u)⟩
      := by
  cases h1 : ctx.lookup_resolved_type path.nodeid with
  | none =>
    rw [Resolve_of_unresolved ctx u indeterminate path h1] at h
    left
    simpa using h.symm
  | some ref =>
    cases h2 : ctx.lookup_node_to_hir ctx.get_current_crate ref with
    | none =>
      rw [Resolve_of_no_hir ctx u indeterminate path ref h1 h2] at h
      left
      simpa using h.symm
    | some hir_node =>
      cases h3 : ctx.lookup_hir_item ctx.get_current_crate hir_node with
      | none =>
        rw [Resolve_of_no_item ctx u indeterminate path ref hir_node h1 h2 h3]
          at h
        simp at h
      | some item =>
        simp only [ResolveTraitRef.Resolve, ResolveTraitRef.go, h1, h2, h3]
          at h
        cases htr : (ResolveTraitRef.accept_vis item
            (ResolveTraitRef.new indeterminate)).trait_reference with
        | none => simp [htr] at h
        | some trait =>
          right
          refine ⟨trait, ?_⟩
          simp [htr, resolve_items_eq, HIR.Trait.get_trait_items] at h
          rw [← h]

/-! The trait resolver on a path that names a trait -/

/-- C1: when the path resolves to a trait declaration, `Resolve` returns a
descriptor whose item table has exactly as many entries as the trait has
items, and for every position `i` the entry at `i` is
`ResolveTraitItemToRef::Resolve` of the item declared at `i`. -/
theorem Resolve_item_table_in_declaration_order (ctx : TypeCheckBase)
    (u : Unsupplied) (indeterminate : Option HIR.Trait) (path : HIR.TypePath)
    (ref : NodeId) (hir_node : HirId) (t : HIR.Trait)
    (h1 : ctx.lookup_resolved_type path.nodeid = some ref)
    (h2 : ctx.lookup_node_to_hir ctx.get_current_crate ref = some hir_node)
    (h3 : ctx.lookup_hir_item ctx.get_current_crate hir_node
      = some (HIR.Item.Trait t)) :
    ∃ r, (ResolveTraitRef.Resolve ctx u indeterminate path).result
        = Outcome.returned r
      ∧ r.item_refs.length = t.get_trait_items.length
      ∧ ∀ (i : Nat) (hi : i < t.get_trait_items.length),
          r.item_refs[i]? = some (ResolveTraitItemToRef.Resolve u
            (t.get_trait_items.get ⟨i, hi⟩)) := by
  refine ⟨⟨some t, t.trait_items.map (ResolveTraitItemToRef.Resolve u)⟩,
    ?_, ?_, ?_⟩
  · rw [Resolve_of_trait ctx u indeterminate path ref hir_node t h1 h2 h3]
  · simp [HIR.Trait.get_trait_items]
  · intro i hi
    simp only [HIR.Trait.get_trait_items] at hi
    simp [HIR.Trait.get_trait_items, List.getElem?_map,
      List.getElem?_eq_getElem hi]

theorem Resolve_item_table_in_declaration_order_witness :
    (sampleCtx.lookup_resolved_type shapePath.nodeid = some 10
      ∧ sampleCtx.lookup_node_to_hir sampleCtx.get_current_crate 10 = some 100
      ∧ sampleCtx.lookup_hir_item sampleCtx.get_current_crate 100
        = some (HIR.Item.Trait shapeTrait))
    ∧ ∃ r, (ResolveTraitRef.Resolve sampleCtx blankUnsupplied none
          shapePath).result = Outcome.returned r
      ∧ r.item_refs.length = shapeTrait.get_trait_items.length
      ∧ ∀ (i : Nat) (hi : i < shapeTrait.get_trait_items.length),
          r.item_refs[i]? = some (ResolveTraitItemToRef.Resolve
            blankUnsupplied (shapeTrait.get_trait_items.get ⟨i, hi⟩)) :=
  ⟨⟨rfl, rfl, rfl⟩,
    Resolve_item_table_in_declaration_order sampleCtx blankUnsupplied none
      shapePath 10 100 shapeTrait rfl rfl rfl⟩

/-! The failure exits -/

/-- C2: when the node id of the path has no entry in the symbol-resolution
collaborator, `Resolve` returns the error sentinel, which is an error with
an empty item table, and the item classifier is called zero times. -/
theorem Resolve_unresolved_path (ctx : TypeCheckBase) (u : Unsupplied)
    (indeterminate : Option HIR.Trait) (path : HIR.TypePath)
    (h1 : ctx.lookup_resolved_type path.nodeid = none) :
    (ResolveTraitRef.Resolve ctx u indeterminate path).result
        = Outcome.returned TraitReference.error
      ∧ TraitReference.error.is_error = true
      ∧ TraitReference.error.item_refs = []
      ∧ (ResolveTraitRef.Resolve ctx u indeterminate path).classified.length
        = 0 := by
  rw [Resolve_of_unresolved ctx u indeterminate path h1]
  simp [TraitReference.error, TraitReference.is_error]

theorem Resolve_unresolved_path_witness :
    sampleCtx.lookup_resolved_type unknownPath.nodeid = none
    ∧ (ResolveTraitRef.Resolve sampleCtx blankUnsupplied none
          unknownPath).result = Outcome.returned TraitReference.error
    ∧ TraitReference.error.is_error = true
    ∧ TraitReference.error.item_refs = []
    ∧ (ResolveTraitRef.Resolve sampleCtx blankUnsupplied none
          unknownPath).classified.length = 0 :=
  ⟨rfl, Resolve_unresolved_path sampleCtx blankUnsupplied none unknownPath rfl⟩

/-- C3, as the claim states it, fails: the definition of the path `Lost` is
found and mapped to a hir id, no item is registered for that hir id, and the
run halts on the assertion `resolved_item != nullptr` instead of returning
the error sentinel. -/
theorem Resolve_unregistered_item_halts :
    sampleCtx.lookup_resolved_type noItemPath.nodeid = some 40
    ∧ sampleCtx.lookup_node_to_hir sampleCtx.get_current_crate 40 = some 400
    ∧ sampleCtx.lookup_hir_item sampleCtx.get_current_crate 400 = none
    ∧ (ResolveTraitRef.Resolve sampleCtx blankUnsupplied none
          noItemPath).result
        = Outcome.halted Assertion.resolved_item_not_null
    ∧ (ResolveTraitRef.Resolve sampleCtx blankUnsupplied none
          noItemPath).result
        ≠ Outcome.returned TraitReference.error := by
  refine ⟨rfl, rfl, rfl, rfl, ?_⟩
  decide

/-- C3, amended: when the definition of the path is found and the mapping
from its node id to a hir id is missing, `Resolve` returns the error
sentinel and calls the item classifier zero times, as for an unresolved
path; when the hir id is mapped and no item is registered for it, the
assertion `resolved_item != nullptr` fails and the run halts. -/
theorem Resolve_missing_declaration (ctx : TypeCheckBase) (u : Unsupplied)
    (indeterminate : Option HIR.Trait) (path : HIR.TypePath) (ref : NodeId)
    (h1 : ctx.lookup_resolved_type path.nodeid = some ref) :
    (ctx.lookup_node_to_hir ctx.get_current_crate ref = none →
      (ResolveTraitRef.Resolve ctx u indeterminate path).result
          = Outcome.returned TraitReference.error
        ∧ (ResolveTraitRef.Resolve ctx u indeterminate path).classified = [])
    ∧ ∀ hir_node : HirId,
        ctx.lookup_node_to_hir ctx.get_current_crate ref = some hir_node →
        ctx.lookup_hir_item ctx.get_current_crate hir_node = none →
        (ResolveTraitRef.Resolve ctx u indeterminate path).result
          = Outcome.halted Assertion.resolved_item_not_null := by
  constructor
  · intro h2
    rw [Resolve_of_no_hir ctx u indeterminate path ref h1 h2]
    exact ⟨rfl, rfl⟩
  · intro hir_node h2 h3
    rw [Resolve_of_no_item ctx u indeterminate path ref hir_node h1 h2 h3]

theorem Resolve_missing_declaration_witness :
    (sampleCtx.lookup_resolved_type noHirPath.nodeid = some 30
      ∧ sampleCtx.lookup_node_to_hir sampleCtx.get_current_crate 30 = none
      ∧ (ResolveTraitRef.Resolve sampleCtx blankUnsupplied none
            noHirPath).result = Outcome.returned TraitReference.error
      ∧ (ResolveTraitRef.Resolve sampleCtx blankUnsupplied none
            noHirPath).classified = [])
    ∧ (sampleCtx.lookup_resolved_type noItemPath.nodeid = some 40
      ∧ sampleCtx.lookup_node_to_hir sampleCtx.get_current_crate 40
        = some 400
      ∧ sampleCtx.lookup_hir_item sampleCtx.get_current_crate 400 = none
      ∧ (ResolveTraitRef.Resolve sampleCtx blankUnsupplied none
            noItemPath).result
          = Outcome.halted Assertion.resolved_item_not_null) :=
  ⟨⟨rfl, rfl,
      (Resolve_missing_declaration sampleCtx blankUnsupplied none noHirPath 30
        rfl).1 rfl⟩,
    ⟨rfl, rfl, rfl,
      (Resolve_missing_declaration sampleCtx blankUnsupplied none noItemPath
        40 rfl).2 400 rfl rfl⟩⟩

/-! A path that names a declaration that is not a trait -/

/-- C4, the code at the failing input: the path `Point` resolves to a
struct, so no case of the visitor writes `trait_reference`. When the field
starts as null the assertion `trait_reference != nullptr` fails and the run
halts; when it starts as a pointer to a trait, the assertion passes and the
run returns a descriptor of that trait, which for a trait without items is a
descriptor that is not an error and has an empty item table. -/
theorem Resolve_struct_reads_indeterminate_field :
    sampleCtx.lookup_resolved_type pointPath.nodeid = some 20
    ∧ sampleCtx.lookup_node_to_hir sampleCtx.get_current_crate 20 = some 200
    ∧ sampleCtx.lookup_hir_item sampleCtx.get_current_crate 200
      = some (HIR.Item.StructStruct "Point")
    ∧ (ResolveTraitRef.Resolve sampleCtx blankUnsupplied none
          pointPath).result
        = Outcome.halted Assertion.trait_reference_not_null
    ∧ (ResolveTraitRef.Resolve sampleCtx blankUnsupplied (some markerTrait)
          pointPath).result
        = Outcome.returned ⟨some markerTrait, []⟩
    ∧ TraitReference.is_error ⟨some markerTrait, []⟩ = false :=
  ⟨rfl, rfl, rfl, rfl, rfl, rfl⟩

/-! The item classifier -/

/-- C5, the code at the failing input: a constant declaration and an
associated-type declaration reach no case of the classifier, so each is
returned as `TraitItemReference::error ()`, of kind `ERROR`. -/
theorem Resolve_const_and_type_are_error (u : Unsupplied)
    (c : HIR.TraitItemConst) (t : HIR.TraitItemType) :
    ResolveTraitItemToRef.Resolve u (HIR.TraitItem.Const c)
        = TraitItemReference.error
    ∧ ResolveTraitItemToRef.Resolve u (HIR.TraitItem.AssocType t)
        = TraitItemReference.error
    ∧ (ResolveTraitItemToRef.Resolve u (HIR.TraitItem.Const c)).type
        = TraitItemReference.TraitItemType.ERROR
    ∧ (ResolveTraitItemToRef.Resolve u (HIR.TraitItem.AssocType t)).type
        = TraitItemReference.TraitItemType.ERROR :=
  ⟨rfl, rfl, rfl, rfl⟩

/-- C6: for every function declaration `fn`, the classifier returns a
descriptor of kind `FN`, which is not an error, whose declaration reference
is `fn` itself. -/
theorem Resolve_func_is_FN (u : Unsupplied) (fn : HIR.TraitItemFunc) :
    (ResolveTraitItemToRef.Resolve u (HIR.TraitItem.Func fn)).type
        = TraitItemReference.TraitItemType.FN
    ∧ (ResolveTraitItemToRef.Resolve u (HIR.TraitItem.Func fn)).is_error
        = false
    ∧ (ResolveTraitItemToRef.Resolve u (HIR.TraitItem.Func fn)).hir_trait_item
        = some (HIR.TraitItem.Func fn) :=
  ⟨rfl, rfl, rfl⟩

/-- C7, the code at the failing input: a function with a default body and
the function of the same name without one classify with the same
`is_optional ()`, so for one of the two the flag differs from the presence
of the body. -/
theorem Resolve_func_optional_ignores_body (u : Unsupplied) (name : String) :
    (ResolveTraitItemToRef.Resolve u
        (HIR.TraitItem.Func ⟨name, true⟩)).is_optional
      = (ResolveTraitItemToRef.Resolve u
        (HIR.TraitItem.Func ⟨name, false⟩)).is_optional
    ∧ ∃ fn : HIR.TraitItemFunc, fn.name = name
      ∧ (ResolveTraitItemToRef.Resolve u (HIR.TraitItem.Func fn)).is_optional
        ≠ fn.has_block_defined := by
  refine ⟨rfl, ⟨name, !u.optional⟩, rfl, ?_⟩
  cases hu : u.optional <;>
    simp [ResolveTraitItemToRef.Resolve, ResolveTraitItemToRef.accept_vis,
      ResolveTraitItemToRef.visit, TraitItemReference.is_optional, hu]

/-! Items that classify as `ERROR` inside a resolved trait -/

/-- C8, the code at the failing input: the trait `Shape` declares a
function, a node of no recognised variant and a constant; `Resolve` returns
a descriptor that is not an error, and the kinds of its item table are
`FN`, `ERROR`, `ERROR`, not `FN`, `ERROR`, `CONST`. -/
theorem Resolve_shape_item_kinds (u : Unsupplied)
    (indeterminate : Option HIR.Trait) :
    ∃ r, (ResolveTraitRef.Resolve sampleCtx u indeterminate shapePath).result
        = Outcome.returned r
      ∧ r.is_error = false
      ∧ r.item_refs.map (fun i => i.type)
        = [TraitItemReference.TraitItemType.FN,
            TraitItemReference.TraitItemType.ERROR,
            TraitItemReference.TraitItemType.ERROR]
      ∧ r.item_refs.map (fun i => i.type)
        ≠ [TraitItemReference.TraitItemType.FN,
            TraitItemReference.TraitItemType.ERROR,
            TraitItemReference.TraitItemType.CONST] := by
  refine ⟨⟨some shapeTrait,
    shapeTrait.trait_items.map (ResolveTraitItemToRef.Resolve u)⟩,
    ?_, rfl, rfl, ?_⟩
  · rw [Resolve_of_trait sampleCtx u indeterminate shapePath 10 100
      shapeTrait rfl rfl rfl]
  · intro hkinds
    have hlast := congrArg (fun l => l[2]?) hkinds
    simp [shapeTrait, ResolveTraitItemToRef.Resolve,
      ResolveTraitItemToRef.accept_vis, ResolveTraitItemToRef.new,
      TraitItemReference.error] at hlast

/-! The error sentinel -/

/-- C9: `TraitReference::error ()` is an error and its item table is empty;
on each failure exit of `Resolve` (the node id of the path is not resolved,
or the resolved node has no hir id) the descriptor returned is this
sentinel; and every descriptor `Resolve` returns that is an error is equal
to the sentinel, so none carries an item table. -/
theorem Resolve_failure_exits_return_sentinel (ctx : TypeCheckBase)
    (u : Unsupplied) (indeterminate : Option HIR.Trait)
    (path : HIR.TypePath) :
    TraitReference.error.is_error = true
    ∧ TraitReference.error.item_refs = []
    ∧ (ctx.lookup_resolved_type path.nodeid = none →
        (ResolveTraitRef.Resolve ctx u indeterminate path).result
          = Outcome.returned TraitReference.error)
    ∧ (∀ ref : NodeId, ctx.lookup_resolved_type path.nodeid = some ref →
        ctx.lookup_node_to_hir ctx.get_current_crate ref = none →
        (ResolveTraitRef.Resolve ctx u indeterminate path).result
          = Outcome.returned TraitReference.error)
    ∧ ∀ r : TraitReference,
        (ResolveTraitRef.Resolve ctx u indeterminate path).result
          = Outcome.returned r →
        r.is_error = true → r = TraitReference.error := by
  refine ⟨rfl, rfl, ?_, ?_, ?_⟩
  · intro h1
    rw [Resolve_of_unresolved ctx u indeterminate path h1]
  · intro ref h1 h2
    rw [Resolve_of_no_hir ctx u indeterminate path ref h1 h2]
  · intro r h herr
    rcases returned_cases ctx u indeterminate path r h with hr | ⟨t, hr⟩
    · exact hr
    · rw [hr] at herr
      simp [TraitReference.is_error] at herr

theorem Resolve_failure_exits_return_sentinel_witness :
    (sampleCtx.lookup_resolved_type unknownPath.nodeid = none
      ∧ (ResolveTraitRef.Resolve sampleCtx blankUnsupplied none
            unknownPath).result = Outcome.returned TraitReference.error)
    ∧ (sampleCtx.lookup_resolved_type noHirPath.nodeid = some 30
      ∧ sampleCtx.lookup_node_to_hir sampleCtx.get_current_crate 30 = none
      ∧ (ResolveTraitRef.Resolve sampleCtx blankUnsupplied none
            noHirPath).result = Outcome.returned TraitReference.error)
    ∧ ((ResolveTraitRef.Resolve sampleCtx blankUnsupplied none
            noHirPath).result = Outcome.returned ⟨none, []⟩
      ∧ TraitReference.is_error ⟨none, []⟩ = true
      ∧ (⟨none, []⟩ : TraitReference) = TraitReference.error) :=
  ⟨⟨rfl,
      (Resolve_failure_exits_return_sentinel sampleCtx blankUnsupplied none
        unknownPath).2.2.1 rfl⟩,
    ⟨rfl, rfl,
      (Resolve_failure_exits_return_sentinel sampleCtx blankUnsupplied none
        noHirPath).2.2.2.1 30 rfl rfl⟩,
    ⟨rfl, rfl,
      (Resolve_failure_exits_return_sentinel sampleCtx blankUnsupplied none
        noHirPath).2.2.2.2 ⟨none, []⟩ rfl rfl⟩⟩

/-- C10, as the claim states it, fails: the path `Marker` resolves to a
trait without items, and the descriptor returned has an empty item table
while its definition reference is set and it is not an error. -/
theorem Resolve_marker_breaks_equivalence :
    (ResolveTraitRef.Resolve sampleCtx blankUnsupplied none markerPath).result
        = Outcome.returned ⟨some markerTrait, []⟩
    ∧ ¬ (((⟨some markerTrait, []⟩ : TraitReference).hir_trait_ref = none
          ↔ (⟨some markerTrait, []⟩ : TraitReference).item_refs = [])
        ∧ ((⟨some markerTrait, []⟩ : TraitReference).item_refs = []
          ↔ TraitReference.is_error ⟨some markerTrait, []⟩ = true)) := by
  refine ⟨rfl, ?_⟩
  simp [TraitReference.is_error]

/-- C10, amended: for every descriptor `Resolve` returns, the definition
reference is unset if and only if the descriptor is an error; an error
descriptor has an empty item table; and a descriptor that is not an error
has an empty item table only when the trait it refers to declares no
items. -/
theorem Resolve_returned_invariant (ctx : TypeCheckBase) (u : Unsupplied)
    (indeterminate : Option HIR.Trait) (path : HIR.TypePath)
    (r : TraitReference)
    (h : (ResolveTraitRef.Resolve ctx u indeterminate path).result
      = Outcome.returned r) :
    (r.hir_trait_ref = none ↔ r.is_error = true)
    ∧ (r.is_error = true → r.item_refs = [])
    ∧ (r.is_error = false → r.item_refs = [] →
        ∃ t, r.hir_trait_ref = some t ∧ t.get_trait_items = []) := by
  rcases returned_cases ctx u indeterminate path r h with hr | ⟨t, hr⟩
  · subst hr
    simp [TraitReference.error, TraitReference.is_error]
  · subst hr
    simp [TraitReference.is_error, HIR.Trait.get_trait_items]

theorem Resolve_returned_invariant_witness :
    (ResolveTraitRef.Resolve sampleCtx blankUnsupplied none markerPath).result
        = Outcome.returned ⟨some markerTrait, []⟩
    ∧ (((⟨some markerTrait, []⟩ : TraitReference).hir_trait_ref = none
        ↔ TraitReference.is_error ⟨some markerTrait, []⟩ = true)
      ∧ (TraitReference.is_error ⟨some markerTrait, []⟩ = true →
          (⟨some markerTrait, []⟩ : TraitReference).item_refs = [])
      ∧ (TraitReference.is_error ⟨some markerTrait, []⟩ = false →
          (⟨some markerTrait, []⟩ : TraitReference).item_refs = [] →
          ∃ t, (⟨some markerTrait, []⟩ : TraitReference).hir_trait_ref
              = some t ∧ t.get_trait_items = [])) :=
  ⟨rfl,
    Resolve_returned_invariant sampleCtx blankUnsupplied none markerPath
      ⟨some markerTrait, []⟩ rfl⟩

/-! Further lemmas on the classifier and on the exits of `go` -/

theorem Resolve_func_eq (u : Unsupplied) (fn : HIR.TraitItemFunc) :
    ResolveTraitItemToRef.Resolve u (HIR.TraitItem.Func fn)
      = ⟨u.identifier, u.optional, TraitItemReference.TraitItemType.FN,
          some (HIR.TraitItem.Func fn), none⟩ := rfl

theorem Resolve_of_item (ctx : TypeCheckBase) (u : Unsupplied)
    (indeterminate : Option HIR.Trait) (path : HIR.TypePath)
    (ref : NodeId) (hir_node : HirId) (item : HIR.Item)
    (h1 : ctx.lookup_resolved_type path.nodeid = some ref)
    (h2 : ctx.lookup_node_to_hir ctx.get_current_crate ref = some hir_node)
    (h3 : ctx.lookup_hir_item ctx.get_current_crate hir_node = some item) :
    ResolveTraitRef.Resolve ctx u indeterminate path
      = match (ResolveTraitRef.accept_vis item
            (ResolveTraitRef.new indeterminate)).trait_reference with
        | none => ⟨Outcome.halted Assertion.trait_reference_not_null, [], []⟩
        | some t =>
          ⟨Outcome.returned
            ⟨some t, t.trait_items.map (ResolveTraitItemToRef.Resolve u)⟩,
            [], t.trait_items⟩ := by
  simp only [ResolveTraitRef.Resolve, ResolveTraitRef.go, h1, h2, h3]
  cases (ResolveTraitRef.accept_vis item
      (ResolveTraitRef.new indeterminate)).trait_reference with
  | none => rfl
  | some t => simp [resolve_items_eq, HIR.Trait.get_trait_items]

/-- A run that returns a descriptor returns the error sentinel with one
diagnostic at the location of the path, or a descriptor that carries a trait
with no diagnostic. -/
theorem returned_with_log (ctx : TypeCheckBase) (u : Unsupplied)
    (indeterminate : Option HIR.Trait) (path : HIR.TypePath)
    (r : TraitReference)
    (h : (ResolveTraitRef.Resolve ctx u indeterminate path).result
      = Outcome.returned r) :
    (r = TraitReference.error
      ∧ ∃ message, (ResolveTraitRef.Resolve ctx u indeterminate path).fatal
          = [⟨path.locus, message⟩])
    ∨ ((∃ t, r.hir_trait_ref = some t)
      ∧ (ResolveTraitRef.Resolve ctx u indeterminate path).fatal = []) := by
  cases h1 : ctx.lookup_resolved_type path.nodeid with
  | none =>
    rw [Resolve_of_unresolved ctx u indeterminate path h1] at h ⊢
    left
    exact ⟨by simpa using h.symm, _, rfl⟩
  | some ref =>
    cases h2 : ctx.lookup_node_to_hir ctx.get_current_crate ref with
    | none =>
      rw [Resolve_of_no_hir ctx u indeterminate path ref h1 h2] at h ⊢
      left
      exact ⟨by simpa using h.symm, _, rfl⟩
    | some hir_node =>
      cases h3 : ctx.lookup_hir_item ctx.get_current_crate hir_node with
      | none =>
        rw [Resolve_of_no_item ctx u indeterminate path ref hir_node h1 h2 h3]
          at h
        simp at h
      | some item =>
        rw [Resolve_of_item ctx u indeterminate path ref hir_node item
          h1 h2 h3] at h ⊢
        cases htr : (ResolveTraitRef.accept_vis item
            (ResolveTraitRef.new indeterminate)).trait_reference with
        | none => simp [htr] at h
        | some t =>
          right
          simp only [htr] at h ⊢
          refine ⟨⟨t, ?_⟩, trivial⟩
          simp at h
          rw [← h]

/-! A trait without items -/

/-- When the path resolves to a trait declared with zero items, `Resolve`
returns a descriptor that is not an error and has an empty item table; it
differs from the error sentinel, and the run does not halt. -/
theorem Resolve_empty_trait (ctx : TypeCheckBase) (u : Unsupplied)
    (indeterminate : Option HIR.Trait) (path : HIR.TypePath)
    (ref : NodeId) (hir_node : HirId) (t : HIR.Trait)
    (h1 : ctx.lookup_resolved_type path.nodeid = some ref)
    (h2 : ctx.lookup_node_to_hir ctx.get_current_crate ref = some hir_node)
    (h3 : ctx.lookup_hir_item ctx.get_current_crate hir_node
      = some (HIR.Item.Trait t))
    (h0 : t.get_trait_items = []) :
    ∃ r, (ResolveTraitRef.Resolve ctx u indeterminate path).result
        = Outcome.returned r
      ∧ r.is_error = false
      ∧ r.item_refs = []
      ∧ r ≠ TraitReference.error
      ∧ ∀ a : Assertion,
          (ResolveTraitRef.Resolve ctx u indeterminate path).result
            ≠ Outcome.halted a := by
  simp only [HIR.Trait.get_trait_items] at h0
  refine ⟨⟨some t, []⟩, ?_, rfl, rfl, ?_, ?_⟩
  · rw [Resolve_of_trait ctx u indeterminate path ref hir_node t h1 h2 h3, h0]
    rfl
  · simp [TraitReference.error]
  · intro a
    rw [Resolve_of_trait ctx u indeterminate path ref hir_node t h1 h2 h3]
    simp

/-- A path that leads to a declaration that is not a trait, resolved with
`trait_reference` starting as a pointer to the trait `t`, runs as a path
that leads to `t` does: it returns the descriptor of `t`. -/
theorem Resolve_of_untouched (ctx : TypeCheckBase) (u : Unsupplied)
    (t : HIR.Trait) (path : HIR.TypePath)
    (ref : NodeId) (hir_node : HirId) (item : HIR.Item)
    (h1 : ctx.lookup_resolved_type path.nodeid = some ref)
    (h2 : ctx.lookup_node_to_hir ctx.get_current_crate ref = some hir_node)
    (h3 : ctx.lookup_hir_item ctx.get_current_crate hir_node = some item)
    (hitem : ∀ t0 : HIR.Trait, item ≠ HIR.Item.Trait t0) :
    ResolveTraitRef.Resolve ctx u (some t) path
      = ⟨Outcome.returned
          ⟨some t, t.trait_items.map (ResolveTraitItemToRef.Resolve u)⟩,
          [], t.trait_items⟩ := by
  rw [Resolve_of_item ctx u (some t) path ref hir_node item h1 h2 h3]
  cases item with
  | Trait t0 => exact absurd rfl (hitem t0)
  | StructStruct name => rfl
  | Enum name => rfl
  | Function name => rfl
  | Other tag => rfl

/-- C11, the code at the failing input: the path `Marker` resolves to a
trait declared with zero items and `Resolve` returns a descriptor that is
not an error and has an empty item table, as the claim says. The path
`Point` leads to a struct, a resolution failure of the kind not-a-trait;
with `trait_reference` starting as a pointer to `Marker` its run is equal
to the run on `Marker`, result, diagnostics and classifier calls alike, so
the empty trait is not distinguishable from this failure. -/
theorem Resolve_empty_trait_equals_struct_run (u : Unsupplied) :
    (ResolveTraitRef.Resolve sampleCtx u none markerPath).result
        = Outcome.returned ⟨some markerTrait, []⟩
    ∧ TraitReference.is_error ⟨some markerTrait, []⟩ = false
    ∧ (⟨some markerTrait, []⟩ : TraitReference).item_refs = []
    ∧ sampleCtx.lookup_resolved_type pointPath.nodeid = some 20
    ∧ sampleCtx.lookup_node_to_hir sampleCtx.get_current_crate 20 = some 200
    ∧ sampleCtx.lookup_hir_item sampleCtx.get_current_crate 200
      = some (HIR.Item.StructStruct "Point")
    ∧ ResolveTraitRef.Resolve sampleCtx u (some markerTrait) pointPath
      = ResolveTraitRef.Resolve sampleCtx u none markerPath :=
  ⟨rfl, rfl, rfl, rfl, rfl, rfl, rfl⟩

/-! Invariants of the item descriptor -/

/-- C12: `TraitItemReference::error ()` is an error with no declaration, no
semantic type, the empty name and `is_optional ()` false; and for every
descriptor the classifier returns, it is an error if and only if its
declaration reference is unset, and when it is an error its semantic type is
unset, its name is empty and `is_optional ()` is false. -/
theorem Resolve_error_iff_no_declaration (u : Unsupplied)
    (item : HIR.TraitItem) :
    (TraitItemReference.error.is_error = true
      ∧ TraitItemReference.error.hir_trait_item = none
      ∧ TraitItemReference.error.ty = none
      ∧ TraitItemReference.error.identifier = ""
      ∧ TraitItemReference.error.is_optional = false)
    ∧ ((ResolveTraitItemToRef.Resolve u item).is_error = true
        ↔ (ResolveTraitItemToRef.Resolve u item).hir_trait_item = none)
    ∧ ((ResolveTraitItemToRef.Resolve u item).is_error = true →
        (ResolveTraitItemToRef.Resolve u item).ty = none
        ∧ (ResolveTraitItemToRef.Resolve u item).identifier = ""
        ∧ (ResolveTraitItemToRef.Resolve u item).is_optional = false) := by
  refine ⟨⟨rfl, rfl, rfl, rfl, rfl⟩, ?_, ?_⟩
  · cases item with
    | Func fn => simp [Resolve_func_eq, TraitItemReference.is_error]
    | Const c =>
      simp [ResolveTraitItemToRef.Resolve, ResolveTraitItemToRef.accept_vis,
        ResolveTraitItemToRef.new, TraitItemReference.error,
        TraitItemReference.is_error]
    | AssocType t =>
      simp [ResolveTraitItemToRef.Resolve, ResolveTraitItemToRef.accept_vis,
        ResolveTraitItemToRef.new, TraitItemReference.error,
        TraitItemReference.is_error]
    | Other tag =>
      simp [ResolveTraitItemToRef.Resolve, ResolveTraitItemToRef.accept_vis,
        ResolveTraitItemToRef.new, TraitItemReference.error,
        TraitItemReference.is_error]
  · cases item with
    | Func fn => simp [Resolve_func_eq, TraitItemReference.is_error]
    | Const c => intro _; exact ⟨rfl, rfl, rfl⟩
    | AssocType t => intro _; exact ⟨rfl, rfl, rfl⟩
    | Other tag => intro _; exact ⟨rfl, rfl, rfl⟩

theorem Resolve_error_iff_no_declaration_witness :
    (ResolveTraitItemToRef.Resolve blankUnsupplied
        (HIR.TraitItem.Const ⟨"SIDES", true⟩)).is_error = true
    ∧ (ResolveTraitItemToRef.Resolve blankUnsupplied
        (HIR.TraitItem.Const ⟨"SIDES", true⟩)).ty = none
    ∧ (ResolveTraitItemToRef.Resolve blankUnsupplied
        (HIR.TraitItem.Const ⟨"SIDES", true⟩)).identifier = ""
    ∧ (ResolveTraitItemToRef.Resolve blankUnsupplied
        (HIR.TraitItem.Const ⟨"SIDES", true⟩)).is_optional = false :=
  ⟨rfl,
    (Resolve_error_iff_no_declaration blankUnsupplied
      (HIR.TraitItem.Const ⟨"SIDES", true⟩)).2.2 rfl⟩

/-- C13, the code at the failing input: for every function declaration the
classifier returns a descriptor of kind `FN`, which is not an error, whose
semantic type is null. -/
theorem Resolve_func_type_is_null (u : Unsupplied) (fn : HIR.TraitItemFunc) :
    (ResolveTraitItemToRef.Resolve u (HIR.TraitItem.Func fn)).type
        = TraitItemReference.TraitItemType.FN
    ∧ (ResolveTraitItemToRef.Resolve u (HIR.TraitItem.Func fn)).is_error
        = false
    ∧ (ResolveTraitItemToRef.Resolve u (HIR.TraitItem.Func fn)).ty = none :=
  ⟨rfl, rfl, rfl⟩

/-- C14, the code at the failing input: the trait `Draw` declares the
functions `draw` and `clear`; both descriptors of the resolved trait are of
kind `FN` and carry the same name, the value the call leaves unsupplied, so
the names of the table are not those declared and are not pairwise
distinct, while the declared names are. -/
theorem Resolve_draw_item_names (u : Unsupplied)
    (indeterminate : Option HIR.Trait) :
    ∃ r, (ResolveTraitRef.Resolve sampleCtx u indeterminate drawPath).result
        = Outcome.returned r
      ∧ r.item_refs.map (fun i => i.type)
        = [TraitItemReference.TraitItemType.FN,
            TraitItemReference.TraitItemType.FN]
      ∧ r.item_refs.map (fun i => i.identifier)
        = [u.identifier, u.identifier]
      ∧ r.item_refs.map (fun i => i.identifier) ≠ ["draw", "clear"]
      ∧ ¬ (r.item_refs.map (fun i => i.identifier)).Nodup
      ∧ ["draw", "clear"].Nodup := by
  refine ⟨⟨some drawTrait,
    drawTrait.trait_items.map (ResolveTraitItemToRef.Resolve u)⟩,
    ?_, rfl, rfl, ?_, ?_, by decide⟩
  · rw [Resolve_of_trait sampleCtx u indeterminate drawPath 60 600
      drawTrait rfl rfl rfl]
  · intro hnames
    simp only [drawTrait, List.map, Resolve_func_eq] at hnames
    have h0 := congrArg (fun l => l[0]?) hnames
    have h1 := congrArg (fun l => l[1]?) hnames
    simp at h0 h1
    rw [h0] at h1
    exact absurd h1 (by decide)
  · simp [drawTrait, Resolve_func_eq]

/-! Repeated calls -/

/-- When the declaration the path leads to, if any, is a trait, the run does
not depend on the value `trait_reference` starts with. -/
theorem Resolve_independent_of_start (ctx : TypeCheckBase) (u : Unsupplied)
    (i1 i2 : Option HIR.Trait) (path : HIR.TypePath)
    (htrait : ∀ (ref : NodeId) (hir_node : HirId) (item : HIR.Item),
      ctx.lookup_resolved_type path.nodeid = some ref →
      ctx.lookup_node_to_hir ctx.get_current_crate ref = some hir_node →
      ctx.lookup_hir_item ctx.get_current_crate hir_node = some item →
      ∃ t, item = HIR.Item.Trait t) :
    ResolveTraitRef.Resolve ctx u i1 path
      = ResolveTraitRef.Resolve ctx u i2 path := by
  cases h1 : ctx.lookup_resolved_type path.nodeid with
  | none =>
    rw [Resolve_of_unresolved ctx u i1 path h1,
      Resolve_of_unresolved ctx u i2 path h1]
  | some ref =>
    cases h2 : ctx.lookup_node_to_hir ctx.get_current_crate ref with
    | none =>
      rw [Resolve_of_no_hir ctx u i1 path ref h1 h2,
        Resolve_of_no_hir ctx u i2 path ref h1 h2]
    | some hir_node =>
      cases h3 : ctx.lookup_hir_item ctx.get_current_crate hir_node with
      | none =>
        rw [Resolve_of_no_item ctx u i1 path ref hir_node h1 h2 h3,
          Resolve_of_no_item ctx u i2 path ref hir_node h1 h2 h3]
      | some item =>
        obtain ⟨t, ht⟩ := htrait ref hir_node item h1 h2 h3
        rw [ht] at h3
        rw [Resolve_of_trait ctx u i1 path ref hir_node t h1 h2 h3,
          Resolve_of_trait ctx u i2 path ref hir_node t h1 h2 h3]

/-- C15, the code at the failing input: the path `Point` resolves to a
struct, and three calls on it, with the same symbol table and tree, end
differently according to what the storage of `trait_reference` holds: a
halt when it is null, the descriptor of `Marker` with no items when it
points at `Marker`, the descriptor of `Draw` with two items when it points
at `Draw`. -/
theorem Resolve_struct_depends_on_start (u : Unsupplied) :
    (ResolveTraitRef.Resolve sampleCtx u none pointPath).result
        = Outcome.halted Assertion.trait_reference_not_null
    ∧ (ResolveTraitRef.Resolve sampleCtx u (some markerTrait)
          pointPath).result
        = Outcome.returned ⟨some markerTrait, []⟩
    ∧ (ResolveTraitRef.Resolve sampleCtx u (some drawTrait) pointPath).result
        = Outcome.returned ⟨some drawTrait,
            [ResolveTraitItemToRef.Resolve u
                (HIR.TraitItem.Func ⟨"draw", false⟩),
              ResolveTraitItemToRef.Resolve u
                (HIR.TraitItem.Func ⟨"clear", true⟩)]⟩
    ∧ (ResolveTraitRef.Resolve sampleCtx u (some markerTrait)
          pointPath).result
        ≠ (ResolveTraitRef.Resolve sampleCtx u (some drawTrait)
          pointPath).result := by
  have hm : (ResolveTraitRef.Resolve sampleCtx u (some markerTrait)
      pointPath).result = Outcome.returned ⟨some markerTrait, []⟩ := rfl
  have hd : (ResolveTraitRef.Resolve sampleCtx u (some drawTrait)
      pointPath).result
        = Outcome.returned ⟨some drawTrait,
            [ResolveTraitItemToRef.Resolve u
                (HIR.TraitItem.Func ⟨"draw", false⟩),
              ResolveTraitItemToRef.Resolve u
                (HIR.TraitItem.Func ⟨"clear", true⟩)]⟩ := rfl
  refine ⟨rfl, hm, hd, ?_⟩
  rw [hm, hd]
  simp

/-! The default result of the classifier -/

/-- C16: for every item whose variant is not a function declaration, the
one variant the classifier has a case for, `Resolve` returns
`TraitItemReference::error ()`, which is the value the field `resolved` of a
fresh visitor holds; the classifier is a total function with no assertion on
its way. -/
theorem Resolve_default_is_error (u : Unsupplied) (item : HIR.TraitItem)
    (h : ∀ fn : HIR.TraitItemFunc, item ≠ HIR.TraitItem.Func fn) :
    ResolveTraitItemToRef.Resolve u item = TraitItemReference.error
    ∧ ResolveTraitItemToRef.new.resolved = TraitItemReference.error := by
  refine ⟨?_, rfl⟩
  cases item with
  | Func fn => exact absurd rfl (h fn)
  | Const c => rfl
  | AssocType t => rfl
  | Other tag => rfl

theorem Resolve_default_is_error_witness :
    (∀ fn : HIR.TraitItemFunc,
        HIR.TraitItem.Other 0 ≠ HIR.TraitItem.Func fn)
    ∧ ResolveTraitItemToRef.Resolve blankUnsupplied (HIR.TraitItem.Other 0)
        = TraitItemReference.error
    ∧ ResolveTraitItemToRef.new.resolved = TraitItemReference.error :=
  ⟨fun _ hne => HIR.TraitItem.noConfusion hne,
    Resolve_default_is_error blankUnsupplied (HIR.TraitItem.Other 0)
      (fun _ hne => HIR.TraitItem.noConfusion hne)⟩

/-! The fatal-error channel -/

/-- C17: on every run of `Resolve` that returns a descriptor, when the
descriptor is an error the log of fatal diagnostics holds exactly one entry
and its location is that of the path, and when the descriptor is not an
error the log is empty. -/
theorem Resolve_fatal_log (ctx : TypeCheckBase) (u : Unsupplied)
    (indeterminate : Option HIR.Trait) (path : HIR.TypePath)
    (r : TraitReference)
    (h : (ResolveTraitRef.Resolve ctx u indeterminate path).result
      = Outcome.returned r) :
    (r.is_error = true →
      ∃ d, (ResolveTraitRef.Resolve ctx u indeterminate path).fatal = [d]
        ∧ d.locus = path.locus)
    ∧ (r.is_error = false →
      (ResolveTraitRef.Resolve ctx u indeterminate path).fatal = []) := by
  rcases returned_with_log ctx u indeterminate path r h with
    ⟨hr, message, hlog⟩ | ⟨⟨t, hr⟩, hlog⟩
  · subst hr
    refine ⟨fun _ => ⟨⟨path.locus, message⟩, hlog, rfl⟩, ?_⟩
    intro herr
    simp [TraitReference.error, TraitReference.is_error] at herr
  · refine ⟨?_, fun _ => hlog⟩
    intro herr
    simp [TraitReference.is_error, hr] at herr

theorem Resolve_fatal_log_witness :
    ((ResolveTraitRef.Resolve sampleCtx blankUnsupplied none
          unknownPath).result = Outcome.returned ⟨none, []⟩
      ∧ TraitReference.is_error ⟨none, []⟩ = true
      ∧ ∃ d, (ResolveTraitRef.Resolve sampleCtx blankUnsupplied none
            unknownPath).fatal = [d] ∧ d.locus = unknownPath.locus)
    ∧ ((ResolveTraitRef.Resolve sampleCtx blankUnsupplied none
          markerPath).result = Outcome.returned ⟨some markerTrait, []⟩
      ∧ TraitReference.is_error ⟨some markerTrait, []⟩ = false
      ∧ (ResolveTraitRef.Resolve sampleCtx blankUnsupplied none
            markerPath).fatal = []) :=
  ⟨⟨rfl, rfl,
      (Resolve_fatal_log sampleCtx blankUnsupplied none unknownPath
        ⟨none, []⟩ rfl).1 rfl⟩,
    ⟨rfl, rfl,
      (Resolve_fatal_log sampleCtx blankUnsupplied none markerPath
        ⟨some markerTrait, []⟩ rfl).2 rfl⟩⟩

/-! The definition reference of a descriptor -/

/-- C18, the code at the failing input: the lookups of the path `Point`
lead to the struct `Point`, no trait is visited, and with `trait_reference`
starting as a pointer to `Draw` the run returns a descriptor that is not an
error, whose definition reference is `Draw` and whose item table is built
from the items of `Draw`. -/
theorem Resolve_struct_returns_other_trait (u : Unsupplied) :
    sampleCtx.lookup_resolved_type pointPath.nodeid = some 20
    ∧ sampleCtx.lookup_node_to_hir sampleCtx.get_current_crate 20 = some 200
    ∧ sampleCtx.lookup_hir_item sampleCtx.get_current_crate 200
      = some (HIR.Item.StructStruct "Point")
    ∧ sampleCtx.lookup_hir_item sampleCtx.get_current_crate 200
      ≠ some (HIR.Item.Trait drawTrait)
    ∧ ∃ r, (ResolveTraitRef.Resolve sampleCtx u (some drawTrait)
          pointPath).result = Outcome.returned r
      ∧ r.is_error = false
      ∧ r.hir_trait_ref = some drawTrait
      ∧ r.item_refs
        = drawTrait.get_trait_items.map (ResolveTraitItemToRef.Resolve u) := by
  refine ⟨rfl, rfl, rfl, by decide, ⟨some drawTrait,
    drawTrait.get_trait_items.map (ResolveTraitItemToRef.Resolve u)⟩,
    rfl, rfl, rfl, rfl⟩

/-! The text of a descriptor -/

/-- C19, the code at the failing input: `as_string ()` dereferences the
declaration reference and the semantic type without a test; on the error
sentinel both are null, on every descriptor the classifier returns the
semantic type is null, so on none of them is the text defined. -/
theorem as_string_undefined_on_resolved
    (item_as_string : HIR.TraitItem → String)
    (ty_as_string : TyTy.BaseType → String) (u : Unsupplied)
    (item : HIR.TraitItem) :
    TraitItemReference.as_string item_as_string ty_as_string
        TraitItemReference.error = none
    ∧ TraitItemReference.as_string item_as_string ty_as_string
        (ResolveTraitItemToRef.Resolve u item) = none := by
  refine ⟨rfl, ?_⟩
  cases item with
  | Func fn => rfl
  | Const c => rfl
  | AssocType t => rfl
  | Other tag => rfl

/-- C20: `trait_item_type_as_string` maps `FN`, `CONST`, `TYPE` and `ERROR`
to "FN", "CONST", "TYPE" and "ERROR"; it is injective; it returns "ERROR"
for the kind `ERROR` only; and for every kind a case of the switch returns,
so the `return` after the switch is not reached. -/
theorem trait_item_type_as_string_injective :
    (TraitItemReference.trait_item_type_as_string
        TraitItemReference.TraitItemType.FN = "FN"
      ∧ TraitItemReference.trait_item_type_as_string
        TraitItemReference.TraitItemType.CONST = "CONST"
      ∧ TraitItemReference.trait_item_type_as_string
        TraitItemReference.TraitItemType.TYPE = "TYPE"
      ∧ TraitItemReference.trait_item_type_as_string
        TraitItemReference.TraitItemType.ERROR = "ERROR")
    ∧ Function.Injective TraitItemReference.trait_item_type_as_string
    ∧ (∀ k, TraitItemReference.trait_item_type_as_string k = "ERROR" →
        k = TraitItemReference.TraitItemType.ERROR)
    ∧ ∀ k, ∃ s, TraitItemReference.trait_item_type_switch k = some s
        ∧ TraitItemReference.trait_item_type_as_string k = s := by
  refine ⟨⟨rfl, rfl, rfl, rfl⟩, ?_, ?_, ?_⟩
  · intro a b hab
    cases a <;> cases b <;> first | rfl | exact absurd hab (by decide)
  · intro k hk
    cases k <;> first | rfl | exact absurd hk (by decide)
  · intro k
    cases k <;> exact ⟨_, rfl, rfl⟩

theorem trait_item_type_as_string_injective_witness :
    TraitItemReference.trait_item_type_as_string
        TraitItemReference.TraitItemType.ERROR = "ERROR"
    ∧ TraitItemReference.TraitItemType.ERROR
        = TraitItemReference.TraitItemType.ERROR :=
  ⟨rfl,
    trait_item_type_as_string_injective.2.2.1
      TraitItemReference.TraitItemType.ERROR rfl⟩

end Resolver

end Rust
